import Mathlib

/-!
The shader loader and the application runtime of go-gl-utils.

A shallow embedding of the packages `shader` (info.go, error.go, load.go) and
`app` (app.go).  The OpenGL driver and the windowing system are outside the
repository: they are modelled as a state of live object names plus a log of
the calls made, and their answers are read from an explicit `World`.  Go
strings that are measured or cut are lists of bytes.
-/

namespace shader

/-! ## Go values -/

/-- The bytes of a Go string. -/
abbrev Bytes := List Nat

/-- The bytes of a text, in UTF-8. -/
def utf8 (s : String) : Bytes :=
  (s.data.flatMap String.utf8EncodeChar).map UInt8.toNat

/-- The int32 that holds the low 32 bits of an integer: the result of int32
arithmetic. -/
def int32 (x : Int) : Int :=
  (x + 2147483648) % 4294967296 - 2147483648

/-- A run-time panic. -/
inductive Panic where
  /-- Raised by strings.Repeat on a negative count. -/
  | negativeRepeatCount
  /-- Raised by gl.Str on a string that does not end in a zero byte. -/
  | missingNullTerminator
  deriving DecidableEq, Repr

/-- How a call ends: it returns a value or it panics. -/
inductive Ret (α : Type) where
  | returned (a : α)
  | panicked (p : Panic)
  deriving DecidableEq, Repr

/-! ## The OpenGL driver boundary -/

/-- Value of gl.FALSE. -/
def FALSE : Int := 0
/-- Value of gl.TRUE. -/
def TRUE : Int := 1
/-- Value of gl.COMPILE_STATUS. -/
def COMPILE_STATUS : Nat := 0x8B81
/-- Value of gl.LINK_STATUS. -/
def LINK_STATUS : Nat := 0x8B82
/-- Value of gl.INFO_LOG_LENGTH. -/
def INFO_LOG_LENGTH : Nat := 0x8B84
/-- Value of gl.PROGRAM_SEPARABLE. -/
def PROGRAM_SEPARABLE : Nat := 0x8258
/-- Value of gl.VERTEX_SHADER. -/
def VERTEX_SHADER : Nat := 0x8B31
/-- Value of gl.FRAGMENT_SHADER. -/
def FRAGMENT_SHADER : Nat := 0x8B30

/-- One call made to the OpenGL driver, with its arguments. -/
inductive Call where
  | CreateProgram
  | CreateShader (type_ : Nat)
  | ShaderSource (shader : Nat) (source : Bytes)
  | CompileShader (shader : Nat)
  | GetShaderiv (shader : Nat) (pname : Nat)
  | GetShaderInfoLog (shader : Nat) (bufSize : Int)
  | AttachShader (program : Nat) (shader : Nat)
  | DeleteShader (shader : Nat)
  | ProgramParameteri (program : Nat) (pname : Nat) (value : Int)
  | LinkProgram (program : Nat)
  | GetProgramiv (program : Nat) (pname : Nat)
  | GetProgramInfoLog (program : Nat) (bufSize : Int)
  | DeleteProgram (program : Nat)
  deriving DecidableEq, Repr

/-- The answers of the outside world: the file system read by `readShader`
and what the driver reports for each object name. -/
structure World where
  /-- The bytes read from a file that os.Open opens, or the error text of
  os.Open. -/
  files : String → Except String Bytes
  /-- Compile status the driver reports for a shader object. -/
  compileStatus : Nat → Bool
  /-- Link status the driver reports for a program object. -/
  linkStatus : Nat → Bool
  /-- The value the driver reports as INFO_LOG_LENGTH of a shader object; it
  is read into an int32. -/
  shaderLogLength : Nat → Int
  /-- Info-log bytes of a shader object, without terminator. -/
  shaderLog : Nat → Bytes
  /-- The value the driver reports as INFO_LOG_LENGTH of a program object; it
  is read into an int32. -/
  programLogLength : Nat → Int
  /-- Info-log bytes of a program object, without terminator. -/
  programLog : Nat → Bytes

/-- Driver state: the next unused object name, the shader and program objects
that are currently allocated, and the calls received so far, oldest first. -/
structure Driver where
  next : Nat
  shaders : List Nat
  programs : List Nat
  calls : List Call
  deriving DecidableEq, Repr

namespace Driver

/-- Record a call in the log. -/
def emit (gl : Driver) (c : Call) : Driver := { gl with calls := gl.calls ++ [c] }

/-- Driver call gl.CreateProgram: a fresh program object. -/
def CreateProgram (gl : Driver) : Nat × Driver :=
  (gl.next, { (gl.emit Call.CreateProgram) with
                next := gl.next + 1, programs := gl.next :: gl.programs })

/-- Driver call gl.CreateShader: a fresh shader object. -/
def CreateShader (gl : Driver) (type_ : Nat) : Nat × Driver :=
  (gl.next, { (gl.emit (Call.CreateShader type_)) with
                next := gl.next + 1, shaders := gl.next :: gl.shaders })

/-- Driver call gl.ShaderSource with one source string. -/
def ShaderSource (gl : Driver) (shader : Nat) (source : Bytes) : Driver :=
  gl.emit (Call.ShaderSource shader source)

/-- Driver call gl.CompileShader. -/
def CompileShader (gl : Driver) (shader : Nat) : Driver :=
  gl.emit (Call.CompileShader shader)

/-- Conversion of a driver boolean to the integer written by a status query. -/
def boolean (b : Bool) : Int := if b then TRUE else FALSE

/-- Driver call gl.GetShaderiv: the int32 written through the out pointer. -/
def GetShaderiv (w : World) (gl : Driver) (shader : Nat) (pname : Nat) : Int × Driver :=
  (if pname = COMPILE_STATUS then boolean (w.compileStatus shader)
   else if pname = INFO_LOG_LENGTH then int32 (w.shaderLogLength shader)
   else 0,
   gl.emit (Call.GetShaderiv shader pname))

/-- Driver call gl.GetProgramiv: the int32 written through the out pointer. -/
def GetProgramiv (w : World) (gl : Driver) (program : Nat) (pname : Nat) : Int × Driver :=
  (if pname = LINK_STATUS then boolean (w.linkStatus program)
   else if pname = INFO_LOG_LENGTH then int32 (w.programLogLength program)
   else 0,
   gl.emit (Call.GetProgramiv program pname))

/-- The bytes left in the buffer `buf` after the driver has written the info
log `text` into it: at most `bufSize` bytes, the terminating zero byte
included, at the start of the buffer, which keeps its length. -/
def writeLog (buf : Bytes) (bufSize : Int) (text : Bytes) : Bytes :=
  let written :=
    if bufSize ≤ 0 then []
    else (text.take (bufSize.toNat - 1) ++ [0]).take buf.length
  written ++ buf.drop written.length

/-- Driver call gl.GetShaderInfoLog into the buffer `buf`. -/
def GetShaderInfoLog (w : World) (gl : Driver) (shader : Nat) (bufSize : Int) (buf : Bytes) :
    Bytes × Driver :=
  (writeLog buf bufSize (w.shaderLog shader), gl.emit (Call.GetShaderInfoLog shader bufSize))

/-- Driver call gl.GetProgramInfoLog into the buffer `buf`. -/
def GetProgramInfoLog (w : World) (gl : Driver) (program : Nat) (bufSize : Int) (buf : Bytes) :
    Bytes × Driver :=
  (writeLog buf bufSize (w.programLog program), gl.emit (Call.GetProgramInfoLog program bufSize))

/-- Driver call gl.AttachShader. -/
def AttachShader (gl : Driver) (program : Nat) (shader : Nat) : Driver :=
  gl.emit (Call.AttachShader program shader)

/-- Driver call gl.DeleteShader: the name is released; the name 0 is ignored. -/
def DeleteShader (gl : Driver) (shader : Nat) : Driver :=
  { (gl.emit (Call.DeleteShader shader)) with
      shaders := if shader = 0 then gl.shaders else gl.shaders.filter (fun h => h ≠ shader) }

/-- Driver call gl.ProgramParameteri. -/
def ProgramParameteri (gl : Driver) (program : Nat) (pname : Nat) (value : Int) : Driver :=
  gl.emit (Call.ProgramParameteri program pname value)

/-- Driver call gl.LinkProgram. -/
def LinkProgram (gl : Driver) (program : Nat) : Driver :=
  gl.emit (Call.LinkProgram program)

/-- Driver call gl.DeleteProgram: the name is released; the name 0 is ignored. -/
def DeleteProgram (gl : Driver) (program : Nat) : Driver :=
  { (gl.emit (Call.DeleteProgram program)) with
      programs := if program = 0 then gl.programs else gl.programs.filter (fun h => h ≠ program) }

end Driver

/-! ## error.go -/

/-- The check gl.Str makes on its argument: the string ends in a zero byte. -/
def hasNullTerminator (str : Bytes) : Bool :=
  str.getLast? = some 0

/-- Source function getErrorMsg: the info log of a shader (`shader = true`) or
of a program.  `l` is an int32 and `l + 1` is int32 arithmetic; strings.Repeat
panics on a negative count and gl.Str on a string without a final zero byte.
The buffer of `l + 1` zero bytes is returned as the driver leaves it. -/
def getErrorMsg (w : World) (shader : Bool) (id : Nat) (gl : Driver) : Ret Bytes × Driver :=
  let (l, gl) :=
    if shader then Driver.GetShaderiv w gl id INFO_LOG_LENGTH
    else Driver.GetProgramiv w gl id INFO_LOG_LENGTH
  let count := int32 (l + 1)
  if count < 0 then (.panicked Panic.negativeRepeatCount, gl)
  else
    let msg : Bytes := List.replicate count.toNat 0
    if ¬ hasNullTerminator msg then (.panicked Panic.missingNullTerminator, gl)
    else
      let (msg, gl) :=
        if shader then Driver.GetShaderInfoLog w gl id l msg
        else Driver.GetProgramInfoLog w gl id l msg
      (.returned msg, gl)

/-! ## info.go -/

/-- Source type Info: one shader stage. -/
structure Info where
  /-- Type of shader: gl.VERTEX_SHADER, gl.FRAGMENT_SHADER, ... -/
  Type_ : Nat
  /-- Filename of shader source file. -/
  Filename : String
  /-- The shader ID; zero until Compile assigns it. -/
  shader : Nat := 0
  deriving DecidableEq, Repr

/-- Source function readShader: the bytes of the file followed by a zero byte,
or the error of os.Open, given by its text. -/
def readShader (w : World) (filename : String) : Except Bytes Bytes :=
  match w.files filename with
  | .error err => .error (utf8 err)
  | .ok content => .ok (content ++ [0])

/-- Source method (i *Info) Compile.  Returns the error, given by its text,
unless the call panics; the receiver as the method leaves it; and the driver
state. -/
def Info.Compile (w : World) (i : Info) (program : Nat) (gl : Driver) :
    Ret (Option Bytes) × Info × Driver :=
  let (h, gl) := gl.CreateShader i.Type_
  let i := { i with shader := h }
  match readShader w i.Filename with
  | .error err => (.returned (some err), i, gl)
  | .ok source =>
    let gl := gl.ShaderSource i.shader source
    let gl := gl.CompileShader i.shader
    let (compiled, gl) := Driver.GetShaderiv w gl i.shader COMPILE_STATUS
    if compiled = FALSE then
      match getErrorMsg w true i.shader gl with
      | (.panicked p, gl) => (.panicked p, i, gl)
      | (.returned msg, gl) =>
        (.returned (some (utf8 "failed to compile " ++ utf8 i.Filename ++ utf8 ": " ++ msg)),
          i, gl)
    else
      let gl := gl.AttachShader program i.shader
      (.returned none, i, gl)

/-- Source method (i *Info) Delete.  Returns the receiver as the method leaves
it, and the driver state. -/
def Info.Delete (i : Info) (gl : Driver) : Info × Driver :=
  (i, gl.DeleteShader i.shader)

/-! ## load.go -/

/-- Source function cleanup: Delete on every element of the slice whose
shader ID is not zero. -/
def cleanup : List Info → Driver → Driver
  | [], gl => gl
  | s :: rest, gl => cleanup rest (if s.shader ≠ 0 then (s.Delete gl).2 else gl)

/-- What a call of load leaves behind. -/
structure LoadResult where
  /-- The two return values, the program ID and the error given by its text,
  unless the call panicked. -/
  ret : Ret (Nat × Option Bytes)
  /-- The caller's slice after the call. -/
  shaders : List Info
  /-- The driver state after the call. -/
  gl : Driver
  deriving DecidableEq, Repr

/-- The range loop of load over the elements `rest` still to visit.  `s` is
the loop variable, a copy of the element: Compile is called on the copy and
the slice `shaders` is not written.  Returns `some` when the body left load,
by a return or a panic. -/
def load.loop (w : World) (shaders : List Info) (program : Nat) :
    List Info → Driver → Option LoadResult × Driver
  | [], gl => (none, gl)
  | s :: rest, gl =>
    match Info.Compile w s program gl with
    | (.panicked p, _s, gl) => (some { ret := .panicked p, shaders := shaders, gl := gl }, gl)
    | (.returned (some e), _s, gl) =>
      let gl := cleanup shaders gl
      let gl := gl.DeleteProgram program
      (some { ret := .returned (0, some e), shaders := shaders, gl := gl }, gl)
    | (.returned none, _s, gl) => load.loop w shaders program rest gl

/-- Source function load. -/
def load (w : World) (shaders : List Info) (separable : Bool) (gl : Driver) : LoadResult :=
  let (program, gl) := gl.CreateProgram
  match load.loop w shaders program shaders gl with
  | (some r, _) => r
  | (none, gl) =>
    let gl := if separable then gl.ProgramParameteri program PROGRAM_SEPARABLE TRUE else gl
    let gl := gl.LinkProgram program
    let gl := cleanup shaders gl
    let (linked, gl) := Driver.GetProgramiv w gl program LINK_STATUS
    if linked = FALSE then
      match getErrorMsg w false program gl with
      | (.panicked p, gl) => { ret := .panicked p, shaders := shaders, gl := gl }
      | (.returned msg, gl) =>
        let gl := gl.DeleteProgram program
        { ret := .returned (0, some (utf8 "failed to link program: " ++ msg)),
          shaders := shaders, gl := gl }
    else
      { ret := .returned (program, none), shaders := shaders, gl := gl }

/-- Source function Load. -/
def Load (w : World) (shaders : List Info) (gl : Driver) : LoadResult :=
  load w shaders false gl

/-- Source function LoadSeparable. -/
def LoadSeparable (w : World) (shaders : List Info) (gl : Driver) : LoadResult :=
  load w shaders true gl

/-! ## Concrete worlds used for evaluation -/

/-- A world with the two shader files of the example, a driver that compiles
and links everything, and empty logs. -/
def goodWorld : World where
  files := fun f =>
    if f = "simple.vert" then .ok (utf8 "#version 410")
    else if f = "simple.frag" then .ok (utf8 "#version 410")
    else .error ("open " ++ f ++ ": no such file or directory")
  compileStatus := fun _ => true
  linkStatus := fun _ => true
  shaderLogLength := fun _ => 0
  shaderLog := fun _ => []
  programLogLength := fun _ => 0
  programLog := fun _ => []

/-- A world in which the fragment stage does not compile: the driver reports
compile status false for the shader object 3, the second stage of a Load from
the fresh driver state, with the five-byte log "error", whose length it reports
as 6, the terminator included. -/
def brokenWorld : World where
  files := fun f =>
    if f = "simple.vert" then .ok (utf8 "#version 410")
    else if f = "broken.frag" then .ok (utf8 "#version 410 void")
    else .error ("open " ++ f ++ ": no such file or directory")
  compileStatus := fun h => decide (h ≠ 3)
  linkStatus := fun _ => true
  shaderLogLength := fun _ => 6
  shaderLog := fun _ => utf8 "error"
  programLogLength := fun _ => 0
  programLog := fun _ => []

/-- A world in which both stages compile, the driver reports link status false
and gives 2147483647 as the length of the program info log. -/
def overflowWorld : World :=
  { goodWorld with linkStatus := fun _ => false, programLogLength := fun _ => 2147483647 }

/-- A descriptor list whose second stage is the file that does not compile. -/
def brokenShaders : List Info :=
  [{ Type_ := VERTEX_SHADER, Filename := "simple.vert" },
   { Type_ := FRAGMENT_SHADER, Filename := "broken.frag" }]

/-- A driver state with nothing allocated and no call made. -/
def Driver.fresh : Driver := { next := 1, shaders := [], programs := [], calls := [] }

/-- The driver state in which the second Compile call of a Load of
brokenShaders from the fresh state starts. -/
def brokenStart : Driver :=
  (Info.Compile brokenWorld { Type_ := VERTEX_SHADER, Filename := "simple.vert" } 1
    Driver.fresh.CreateProgram.2).2.2

/-- The descriptor list of the example scene. -/
def exampleShaders : List Info :=
  [{ Type_ := VERTEX_SHADER, Filename := "simple.vert" },
   { Type_ := FRAGMENT_SHADER, Filename := "simple.frag" }]

end shader
namespace app

/-! ## The windowing boundary (app.go) -/

/-- Value of glfw.Release. -/
def Release : Int := 0
/-- Value of glfw.KeyEscape. -/
def KeyEscape : Int := 256
/-- Value of glfw.False. -/
def False_ : Int := 0
/-- Value of glfw.True. -/
def True_ : Int := 1
/-- Value of glfw.OpenGLCoreProfile. -/
def OpenGLCoreProfile : Int := 0x00032001
/-- Value of gl.VENDOR. -/
def VENDOR : Nat := 0x1F00
/-- Value of gl.RENDERER. -/
def RENDERER : Nat := 0x1F01
/-- Value of gl.VERSION. -/
def VERSION : Nat := 0x1F02
/-- Value of gl.SHADING_LANGUAGE_VERSION. -/
def SHADING_LANGUAGE_VERSION : Nat := 0x8B8C

/-- The arguments of one key event: key, scancode, action, mods. -/
structure KeyEvent where
  key : Int
  scancode : Int
  action : Int
  mods : Int
  deriving DecidableEq, Repr

/-- The window hints set by Run. -/
inductive Hint where
  | Resizable
  | ContextVersionMajor
  | ContextVersionMinor
  | OpenGLProfile
  | OpenGLForwardCompatible
  deriving DecidableEq, Repr

/-- One call that leaves the package: to GLFW, to OpenGL, to the standard
output, to the Scene or to the key callback supplied in the Config.  Windows,
monitors and callbacks are referred to by name. -/
inductive Event where
  | Init
  | Terminate
  | GetMonitors
  | WindowHint (hint : Hint) (value : Int)
  | CreateWindow (width height : Int) (title : String) (monitor : Option Nat)
  | MakeContextCurrent (window : Nat)
  | glInit
  | Println (label text : String)
  | Setup
  | SetKeyCallback (window : Nat)
  | ShouldClose (window : Nat)
  | Update
  | Display
  | Flush
  | SwapBuffers (window : Nat)
  | PollEvents
  | Cleanup
  | SetShouldClose (window : Nat) (value : Bool)
  | sceneKeyCallback (callback : Nat) (window : Nat) (ev : KeyEvent)
  deriving DecidableEq, Repr

/-- What a PollEvents call can deliver to the window. -/
inductive Input where
  | key (ev : KeyEvent)
  | close
  deriving DecidableEq, Repr

/-- The answers of the outside world to a run of the app. -/
structure Sys where
  /-- The program name, os.Args[0]. -/
  args0 : String
  /-- The error of glfw.Init, if any. -/
  glfwInit : Option String
  /-- The names of the monitors glfw.GetMonitors reports. -/
  monitors : List String
  /-- The outcome of the glfw.CreateWindow call made for candidate number i:
  an error text or the name of the new window. -/
  createWindow : Nat → Except String Nat
  /-- The error of gl.Init, if any. -/
  glInit : Option String
  /-- The text of gl.GetString. -/
  glString : Nat → String
  /-- The error Scene.Setup returns, if any. -/
  setup : Option String
  /-- What each successive glfw.PollEvents call delivers. -/
  frames : List (List Input)

/-- The package-level variables of app.go; the three flags hold the values
left by flag.Parse. -/
structure Globals where
  screenWidth : Int
  screenHeight : Int
  screen : Int
  sceneKeyCallback : Option Nat := none
  deriving DecidableEq, Repr

/-- Source type Config.  A version of SupportedGLVers is the pair of its two
components as converted by int(...); a key callback is referred to by name. -/
structure Config where
  Name : String
  DefaultScreenWidth : Int
  DefaultScreenHeight : Int
  EscapeToQuit : Bool
  SupportedGLVers : List (Int × Int)
  SkipFlushAfterLoop : Bool := false
  KeyCallback : Option Nat := none
  deriving DecidableEq, Repr

/-- Source type Context; the Scene is part of the outside world. -/
structure Context where
  Config : Config
  ScreenWidth : Int := 0
  ScreenHeight : Int := 0
  deriving DecidableEq, Repr

/-- Source function New. -/
def New (c : Config) : Context := { Config := c }

/-- The state GLFW keeps for a window: its should-close flag and whether
keyCallback has been installed on it. -/
structure Window where
  name : Nat
  shouldClose : Bool := false
  keyCallback : Bool := false
  deriving DecidableEq, Repr

/-- A run-time panic. -/
inductive Panic where
  | nilDereference
  | indexOutOfRange
  deriving DecidableEq, Repr

/-- How a block of Run ends: control goes on with a value, Run returns, or
the program panics. -/
inductive Step (α : Type) where
  | next (a : α)
  | ret (err : Option String)
  | panic (p : Panic)
  deriving DecidableEq, Repr

/-- How Run ends.  `looping` stands for a loop still running when the script
of delivered inputs is used up. -/
inductive Outcome where
  | returned (err : Option String)
  | panicked (p : Panic)
  | looping
  deriving DecidableEq, Repr

/-- Source function keyCallback.  The callback of the Config is outside the
package: its invocation is recorded with its arguments. -/
def keyCallback (g : Globals) (w : Window) (ev : KeyEvent) : Window × List Event :=
  let (w, evs) :=
    if ev.action = Release ∧ ev.key = KeyEscape then
      ({ w with shouldClose := true }, [Event.SetShouldClose w.name true])
    else (w, [])
  match g.sceneKeyCallback with
  | some cb => (w, evs ++ [Event.sceneKeyCallback cb w.name ev])
  | none => (w, evs)

/-- Delivery of one input to a window by GLFW: a key event goes to the key
callback installed on the window, if one is. -/
def Window.deliver (g : Globals) (w : Window) : Input → Window × List Event
  | .key ev => if w.keyCallback then app.keyCallback g w ev else (w, [])
  | .close => ({ w with shouldClose := true }, [])

/-- Delivery of the inputs of one PollEvents call, in order. -/
def Window.poll (g : Globals) : Window → List Input → Window × List Event
  | w, [] => (w, [])
  | w, i :: rest =>
    let (w, evs) := w.deliver g i
    let (w, evs2) := Window.poll g w rest
    (w, evs ++ evs2)

/-- The text listing the monitors in the "invalid monitor" error of Run. -/
def monitorMenu : Nat → List String → String
  | _, [] => ""
  | i, name :: rest =>
    toString (i + 1) ++ " - " ++ name ++ "\n" ++ monitorMenu (i + 1) rest

/-- The monitor selection of Run: the block guarded by `screen != 0`.  The
value is the index of the chosen monitor, or none for windowed mode. -/
def Context.Run.selectMonitor (sys : Sys) (screen : Int) : Step (Option Nat) × List Event :=
  if screen ≠ 0 then
    let m := sys.monitors
    if screen > (m.length : Int) then
      let msg := "0 - windowed mode\n" ++ monitorMenu 0 m
      (.ret (some ("invalid monitor " ++ toString screen ++
          ", please select from the following:\n" ++ msg)), [Event.GetMonitors])
    else
      -- monitor = m[screen-1]
      if screen - 1 < 0 ∨ (m.length : Int) ≤ screen - 1 then
        (.panic Panic.indexOutOfRange, [Event.GetMonitors])
      else (.next (some (screen - 1).toNat), [Event.GetMonitors])
  else (.next none, [])

/-- The window hints and the CreateWindow call of one candidate. -/
def Context.Run.attempt (width height : Int) (name : String) (monitor : Option Nat)
    (maj min : Int) : List Event :=
  [Event.WindowHint Hint.Resizable False_,
   Event.WindowHint Hint.ContextVersionMajor maj,
   Event.WindowHint Hint.ContextVersionMinor min,
   Event.WindowHint Hint.OpenGLProfile OpenGLCoreProfile,
   Event.WindowHint Hint.OpenGLForwardCompatible True_,
   Event.CreateWindow width height name monitor]

/-- The loop of Run over SupportedGLVers, at index `i` with the candidates
`rest` still to try; `len` is the length of the whole list, `window` the
variable assigned by the loop and `msg` the text gathered so far.  The value
is the variable `window` when the loop is left. -/
def Context.Run.tryVersions (sys : Sys) (width height : Int) (name : String)
    (monitor : Option Nat) (len : Nat) :
    Nat → List (Int × Int) → Option Nat → String → Step (Option Nat) × List Event
  | _, [], window, _ => (.next window, [])
  | i, (maj, min) :: rest, _, msg =>
    let evs := Context.Run.attempt width height name monitor maj min
    match sys.createWindow i with
    | .error err =>
      let msg := msg ++ ("trying to set GL version " ++ toString maj ++ "." ++ toString min ++
        ": " ++ err ++ "\n")
      if (i : Int) = (len : Int) - 1 then
        (.ret (some ("failed to create window: " ++ msg)), evs)
      else
        let (r, evs2) := Context.Run.tryVersions sys width height name monitor len (i + 1) rest
          none msg
        (r, evs ++ evs2)
    | .ok window => (.next (some window), evs)

/-- The state of Run when it enters its main loop. -/
structure Started where
  ctx : Context
  globals : Globals
  window : Window
  deriving DecidableEq, Repr

/-- Source method (ctx *Context) Run, from its start to the entry of the main
loop, after a successful glfw.Init. -/
def Context.Run.start (sys : Sys) (ctx : Context) (g : Globals) : Step Started × List Event :=
  match Context.Run.selectMonitor sys g.screen with
  | (.ret err, evs) => (.ret err, evs)
  | (.panic p, evs) => (.panic p, evs)
  | (.next monitor, evs) =>
    match Context.Run.tryVersions sys g.screenWidth g.screenHeight ctx.Config.Name monitor
        ctx.Config.SupportedGLVers.length 0 ctx.Config.SupportedGLVers none "" with
    | (.ret err, evs2) => (.ret err, evs ++ evs2)
    | (.panic p, evs2) => (.panic p, evs ++ evs2)
    | (.next none, evs2) =>
      -- window.MakeContextCurrent() on the nil window
      (.panic Panic.nilDereference, evs ++ evs2)
    | (.next (some window), evs2) =>
      let evs := evs ++ evs2 ++ [Event.MakeContextCurrent window, Event.glInit]
      match sys.glInit with
      | some err => (.ret (some ("unable to initialize Glow ... exiting: " ++ err)), evs)
      | none =>
        let evs := evs ++
          [Event.Println "OpenGL vendor" (sys.glString VENDOR),
           Event.Println "OpenGL renderer" (sys.glString RENDERER),
           Event.Println "OpenGL version" (sys.glString VERSION),
           Event.Println "GLSL version" (sys.glString SHADING_LANGUAGE_VERSION),
           Event.Setup]
        match sys.setup with
        | some err => (.ret (some err), evs)
        | none =>
          let g := { g with sceneKeyCallback := ctx.Config.KeyCallback }
          if ctx.Config.EscapeToQuit then
            (.next { ctx := ctx, globals := g,
                     window := { name := window, keyCallback := true } },
              evs ++ [Event.SetKeyCallback window])
          else
            (.next { ctx := ctx, globals := g, window := { name := window } }, evs)

/-- The main loop of Run, driven by the inputs each PollEvents call delivers. -/
def Context.Run.mainLoop (ctx : Context) (g : Globals) :
    List (List Input) → Window → Outcome × Window × List Event
  | [], w =>
    if w.shouldClose then (.returned none, w, [Event.ShouldClose w.name, Event.Cleanup])
    else (.looping, w, [Event.ShouldClose w.name])
  | inputs :: frames, w =>
    if w.shouldClose then (.returned none, w, [Event.ShouldClose w.name, Event.Cleanup])
    else
      let evs := [Event.ShouldClose w.name, Event.Update, Event.Display] ++
        (if ¬ ctx.Config.SkipFlushAfterLoop then [Event.Flush] else []) ++
        [Event.SwapBuffers w.name, Event.PollEvents]
      let (w2, evs2) := Window.poll g w inputs
      let (out, w3, evs3) := Context.Run.mainLoop ctx g frames w2
      (out, w3, evs ++ evs2 ++ evs3)

/-- What a call of Run leaves behind. -/
structure RunResult where
  outcome : Outcome
  ctx : Context
  globals : Globals
  events : List Event
  deriving DecidableEq, Repr

/-- Source method (ctx *Context) Run. -/
def Context.Run (sys : Sys) (ctx : Context) (g : Globals) : RunResult :=
  -- flag.Parse(): the flags are in g
  let ctx := if ctx.Config.Name = "" then { ctx with Config := { ctx.Config with Name := sys.args0 } }
             else ctx
  let g := if g.screenWidth ≤ 0 then { g with screenWidth := ctx.Config.DefaultScreenWidth } else g
  let ctx := { ctx with ScreenWidth := g.screenWidth }
  let g := if g.screenHeight ≤ 0 then { g with screenHeight := ctx.Config.DefaultScreenHeight } else g
  let ctx := { ctx with ScreenHeight := g.screenHeight }
  match sys.glfwInit with
  | some err =>
    { outcome := .returned (some ("failed to initialize glfw: " ++ err)), ctx := ctx, globals := g,
      events := [Event.Init] }
  | none =>
    -- defer glfw.Terminate()
    match Context.Run.start sys ctx g with
    | (.ret err, evs) =>
      { outcome := .returned err, ctx := ctx, globals := g,
        events := Event.Init :: evs ++ [Event.Terminate] }
    | (.panic p, evs) =>
      { outcome := .panicked p, ctx := ctx, globals := g,
        events := Event.Init :: evs ++ [Event.Terminate] }
    | (.next st, evs) =>
      match Context.Run.mainLoop st.ctx st.globals sys.frames st.window with
      | (.looping, _, evs2) =>
        { outcome := .looping, ctx := st.ctx, globals := st.globals,
          events := Event.Init :: evs ++ evs2 }
      | (out, _, evs2) =>
        { outcome := out, ctx := st.ctx, globals := st.globals,
          events := Event.Init :: evs ++ evs2 ++ [Event.Terminate] }

/-- Whether an event is an invocation of the key callback of the Config. -/
def Event.isSceneKeyCallback : Event → Bool
  | .sceneKeyCallback _ _ _ => true
  | _ => false

/-- Whether an event is a SetShouldClose call. -/
def Event.isSetShouldClose : Event → Bool
  | .SetShouldClose _ _ => true
  | _ => false

/-! ## Concrete systems used for evaluation -/

/-- A system with one monitor on which everything succeeds and no input arrives. -/
def goodSys : Sys where
  args0 := "example"
  glfwInit := none
  monitors := ["Built-in Display"]
  createWindow := fun _ => .ok 1
  glInit := none
  glString := fun _ => ""
  setup := none
  frames := []

/-- The Config of example.go. -/
def exampleConfig : Config where
  Name := "Example App"
  DefaultScreenWidth := 320
  DefaultScreenHeight := 200
  EscapeToQuit := true
  SupportedGLVers := [(4, 3), (4, 1)]

/-- The goodSys system with one PollEvents call that delivers a release of the
Escape key. -/
def escapeSys : Sys := { goodSys with frames := [[Input.key ⟨KeyEscape, 0, Release, 0⟩]] }

/-- The Config of example.go with a key callback, named 7, added. -/
def callbackConfig : Config := { exampleConfig with KeyCallback := some 7 }

/-- The state in which Run enters its main loop on goodSys with callbackConfig
and no flag. -/
def callbackStarted : Started where
  ctx := New callbackConfig
  globals := { screenWidth := 0, screenHeight := 0, screen := 0, sceneKeyCallback := some 7 }
  window := { name := 1, keyCallback := true }

/-- No flag given on the command line. -/
def noFlags : Globals := { screenWidth := 0, screenHeight := 0, screen := 0 }

end app

namespace shader

/-! ## Reading the call log -/

/-- The calls the driver received after the state `before`, read from the log
of a later state. -/
def Driver.since (after before : Driver) : List Call :=
  after.calls.drop before.calls.length

/-- Whether Compile returns nil for the stage `s` when the driver hands out the
name `h` for its shader object: read off the source method itself. -/
def compiles (w : World) (h : Nat) (s : Info) : Bool :=
  decide ((Info.Compile w s 0 { next := h, shaders := [], programs := [], calls := [] }).1 =
    Ret.returned none)

/-- Whether an info-log length, as an int32, is one for which getErrorMsg
returns: from 0 to 2^31 - 2. -/
def lengthInRange (l : Int) : Prop :=
  0 ≤ int32 l ∧ int32 l < 2147483647

/-- How getErrorMsg ends when the driver reports the length `l`, an int32, for
the log `text`, in closed form. -/
def msgRet (l : Int) (text : Bytes) : Ret Bytes :=
  if int32 (l + 1) < 0 then .panicked Panic.negativeRepeatCount
  else if int32 (l + 1) = 0 then .panicked Panic.missingNullTerminator
  else .returned (Driver.writeLog (List.replicate (int32 (l + 1)).toNat 0) l text)

/-- The calls getErrorMsg makes on the object `id`, in closed form. -/
def msgCalls (shader : Bool) (id : Nat) (l : Int) : List Call :=
  (if shader then Call.GetShaderiv id INFO_LOG_LENGTH else Call.GetProgramiv id INFO_LOG_LENGTH) ::
    if 0 < int32 (l + 1) then
      [if shader then Call.GetShaderInfoLog id l else Call.GetProgramInfoLog id l]
    else []

/-- Whether Compile returns nil for stage `s` and shader name `h`, in closed form. -/
def compileOk (w : World) (h : Nat) (s : Info) : Bool :=
  match readShader w s.Filename with
  | .error _ => false
  | .ok _ => w.compileStatus h

/-- How Compile ends for stage `s` and shader name `h`, in closed form. -/
def compileRet (w : World) (h : Nat) (s : Info) : Ret (Option Bytes) :=
  match readShader w s.Filename with
  | .error err => .returned (some err)
  | .ok _ =>
    if w.compileStatus h then .returned none
    else
      match msgRet (int32 (w.shaderLogLength h)) (w.shaderLog h) with
      | .panicked p => .panicked p
      | .returned msg =>
        .returned (some (utf8 "failed to compile " ++ utf8 s.Filename ++ utf8 ": " ++ msg))

/-- The calls Compile makes for stage `s` and shader name `h`, in closed form. -/
def compileCalls (w : World) (program h : Nat) (s : Info) : List Call :=
  Call.CreateShader s.Type_ ::
    match readShader w s.Filename with
    | .error _ => []
    | .ok source =>
      [Call.ShaderSource h source, Call.CompileShader h, Call.GetShaderiv h COMPILE_STATUS] ++
        if w.compileStatus h then [Call.AttachShader program h]
        else msgCalls true h (int32 (w.shaderLogLength h))

/-- How the loop of load ends when the first shader name handed out is `h`:
with nil when every Compile returns nil, else as the first Compile that does
not. -/
def loopRet (w : World) : Nat → List Info → Ret (Option Bytes)
  | _, [] => .returned none
  | h, s :: rest => if compileOk w h s then loopRet w (h + 1) rest else compileRet w h s

/-- The number of Compile calls the loop of load makes. -/
def loopRuns (w : World) : Nat → List Info → Nat
  | _, [] => 0
  | h, s :: rest => (if compileOk w h s then loopRuns w (h + 1) rest else 0) + 1

/-- The calls made by the Compile calls of the loop of load. -/
def loopCalls (w : World) (program : Nat) : Nat → List Info → List Call
  | _, [] => []
  | h, s :: rest =>
    compileCalls w program h s ++
      if compileOk w h s then loopCalls w program (h + 1) rest else []

/-- The driver state after the Compile calls of the loop of load. -/
def afterCompiles (w : World) (program : Nat) (rest : List Info) (gl : Driver) : Driver :=
  { next := gl.next + loopRuns w gl.next rest,
    shaders := (List.range' gl.next (loopRuns w gl.next rest)).reverse ++ gl.shaders,
    programs := gl.programs,
    calls := gl.calls ++ loopCalls w program gl.next rest }

/-- The DeleteShader calls made by cleanup. -/
def cleanupCalls (shaders : List Info) : List Call :=
  (shaders.filter (fun s => s.shader ≠ 0)).map (fun s => Call.DeleteShader s.shader)

/-- The live shader names left by cleanup. -/
def cleanupLive : List Info → List Nat → List Nat
  | [], live => live
  | s :: rest, live =>
    cleanupLive rest (if s.shader ≠ 0 then live.filter (fun h => h ≠ s.shader) else live)

/-- Whether a call is a CreateShader call. -/
def Call.isCreateShader : Call → Bool
  | .CreateShader _ => true
  | _ => false

/-- Whether a call is a DeleteShader call. -/
def Call.isDeleteShader : Call → Bool
  | .DeleteShader _ => true
  | _ => false

/-- Whether a call is a ProgramParameteri call. -/
def Call.isProgramParameteri : Call → Bool
  | .ProgramParameteri _ _ _ => true
  | _ => false

/-- The calls made by Compile: every call but those on programs and DeleteShader. -/
def Call.isCompileCall : Call → Bool
  | .CreateShader _ => true
  | .ShaderSource _ _ => true
  | .CompileShader _ => true
  | .GetShaderiv _ _ => true
  | .GetShaderInfoLog _ _ => true
  | .AttachShader _ _ => true
  | _ => false

/-- How load ends when the program name handed out is `p`, in closed form. -/
def loadRet (w : World) (shaders : List Info) (p : Nat) : Ret (Nat × Option Bytes) :=
  match loopRet w (p + 1) shaders with
  | .panicked q => .panicked q
  | .returned (some e) => .returned (0, some e)
  | .returned none =>
    if w.linkStatus p then .returned (p, none)
    else
      match msgRet (int32 (w.programLogLength p)) (w.programLog p) with
      | .panicked q => .panicked q
      | .returned msg => .returned (0, some (utf8 "failed to link program: " ++ msg))

/-- Whether load ends by returning an error. -/
def loadFails (w : World) (shaders : List Info) (p : Nat) : Bool :=
  match loadRet w shaders p with
  | .returned (_, some _) => true
  | _ => false

/-- Whether load ends by a panic inside its loop. -/
def loopPanics (w : World) (shaders : List Info) (p : Nat) : Bool :=
  match loopRet w (p + 1) shaders with
  | .panicked _ => true
  | _ => false

/-- The calls load makes after LinkProgram, in closed form. -/
def finishCalls (w : World) (shaders : List Info) (p : Nat) : List Call :=
  cleanupCalls shaders ++ Call.GetProgramiv p LINK_STATUS ::
    if w.linkStatus p then []
    else msgCalls false p (int32 (w.programLogLength p)) ++
      match msgRet (int32 (w.programLogLength p)) (w.programLog p) with
      | .panicked _ => []
      | .returned _ => [Call.DeleteProgram p]

/-- The calls load makes from LinkProgram on, in closed form. -/
def linkCalls (w : World) (shaders : List Info) (p : Nat) : List Call :=
  Call.LinkProgram p :: finishCalls w shaders p

/-- The calls load makes up to the end of its loop, in closed form. -/
def compileAllCalls (w : World) (shaders : List Info) (p : Nat) : List Call :=
  Call.CreateProgram :: loopCalls w p (p + 1) shaders

/-- The calls load makes when the program name handed out is `p`, in closed form. -/
def loadCalls (w : World) (shaders : List Info) (separable : Bool) (p : Nat) : List Call :=
  compileAllCalls w shaders p ++
    match loopRet w (p + 1) shaders with
    | .panicked _ => []
    | .returned (some _) => cleanupCalls shaders ++ [Call.DeleteProgram p]
    | .returned none =>
      (if separable then [Call.ProgramParameteri p PROGRAM_SEPARABLE TRUE] else []) ++
        linkCalls w shaders p

/-! ## Lemmas on getErrorMsg -/

theorem int32_succ (l : Int) (h0 : 0 ≤ l) (h1 : l < 2147483647) : int32 (l + 1) = l + 1 := by
  unfold int32; omega

theorem int32_int32 (l : Int) : int32 (int32 l) = int32 l := by
  unfold int32; omega

theorem hasNullTerminator_replicate (n : Nat) :
    hasNullTerminator (List.replicate n 0) = decide (n ≠ 0) := by
  cases n <;> simp [hasNullTerminator, List.getLast?_replicate]

theorem getErrorMsg_shader (w : World) (id : Nat) (gl : Driver) :
    getErrorMsg w true id gl =
      (msgRet (int32 (w.shaderLogLength id)) (w.shaderLog id),
        { gl with calls := gl.calls ++ msgCalls true id (int32 (w.shaderLogLength id)) }) := by
  unfold getErrorMsg msgRet msgCalls
  simp only [Driver.GetShaderiv, Driver.emit, INFO_LOG_LENGTH, COMPILE_STATUS,
    Driver.GetShaderInfoLog, hasNullTerminator_replicate]
  by_cases h1 : int32 (int32 (w.shaderLogLength id) + 1) < 0
  · have h2 : ¬ 0 < int32 (int32 (w.shaderLogLength id) + 1) := by omega
    simp [h1, h2]
  · by_cases h3 : int32 (int32 (w.shaderLogLength id) + 1) = 0
    · simp [h3]
    · have h2 : 0 < int32 (int32 (w.shaderLogLength id) + 1) := by omega
      have h4 : ¬ (int32 (int32 (w.shaderLogLength id) + 1)).toNat = 0 := by omega
      simp [h1, h2, h3, h4]

theorem getErrorMsg_program (w : World) (id : Nat) (gl : Driver) :
    getErrorMsg w false id gl =
      (msgRet (int32 (w.programLogLength id)) (w.programLog id),
        { gl with calls := gl.calls ++ msgCalls false id (int32 (w.programLogLength id)) }) := by
  unfold getErrorMsg msgRet msgCalls
  simp only [Driver.GetProgramiv, Driver.emit, INFO_LOG_LENGTH, LINK_STATUS,
    Driver.GetProgramInfoLog, hasNullTerminator_replicate]
  by_cases h1 : int32 (int32 (w.programLogLength id) + 1) < 0
  · have h2 : ¬ 0 < int32 (int32 (w.programLogLength id) + 1) := by omega
    simp [h1, h2]
  · by_cases h3 : int32 (int32 (w.programLogLength id) + 1) = 0
    · simp [h3]
    · have h2 : 0 < int32 (int32 (w.programLogLength id) + 1) := by omega
      have h4 : ¬ (int32 (int32 (w.programLogLength id) + 1)).toNat = 0 := by omega
      simp [h1, h2, h3, h4]

theorem writeLog_replicate (n : Nat) (text : Bytes) :
    Driver.writeLog (List.replicate (n + 1) 0) (n : Int) text =
      text.take (n - 1) ++ List.replicate (n + 1 - min (n - 1) text.length) 0 := by
  unfold Driver.writeLog
  cases n with
  | zero => simp
  | succ k =>
    have hpos : ¬ ((k + 1 : Nat) : Int) ≤ 0 := by omega
    have hlen : (List.take k text ++ [0]).length ≤ k + 1 + 1 := by
      simp only [List.length_append, List.length_take, List.length_singleton]
      omega
    simp only [hpos, if_false, List.length_replicate, Int.toNat_ofNat, Nat.add_sub_cancel,
      List.take_of_length_le hlen, List.drop_replicate, List.length_append, List.length_take,
      List.length_singleton, List.append_assoc]
    congr 1
    have : k + 1 + 1 - min k text.length = (k + 1 + 1 - (min k text.length + 1)) + 1 := by omega
    rw [this, List.replicate_succ]
    rfl

theorem msgRet_inRange (l : Int) (text : Bytes) (h : lengthInRange l) :
    msgRet (int32 l) text =
      .returned (text.take ((int32 l).toNat - 1) ++
        List.replicate ((int32 l).toNat + 1 - min ((int32 l).toNat - 1) text.length) 0) := by
  obtain ⟨h0, h1⟩ := h
  have hs := int32_succ (int32 l) h0 h1
  unfold msgRet
  rw [hs]
  obtain ⟨n, hn⟩ := Int.eq_ofNat_of_zero_le h0
  rw [hn]
  have h2 : ¬ (n : Int) + 1 < 0 := by omega
  have h3 : ¬ (n : Int) + 1 = 0 := by omega
  have h4 : ((n : Int) + 1).toNat = n + 1 := by omega
  simp only [h2, h3, if_false, h4, Int.toNat_ofNat, writeLog_replicate]

/-! ## Lemmas on Compile -/

theorem Compile_eq (w : World) (i : Info) (program : Nat) (gl : Driver) :
    Info.Compile w i program gl =
      (compileRet w gl.next i, { i with shader := gl.next },
        { next := gl.next + 1, shaders := gl.next :: gl.shaders, programs := gl.programs,
          calls := gl.calls ++ compileCalls w program gl.next i }) := by
  unfold Info.Compile compileRet compileCalls
  cases hf : readShader w i.Filename with
  | error e => simp [Driver.CreateShader, Driver.emit, hf]
  | ok src =>
    cases hc : w.compileStatus gl.next with
    | true =>
      simp [Driver.CreateShader, Driver.emit, hf, hc, Driver.ShaderSource, Driver.CompileShader,
        Driver.GetShaderiv, Driver.boolean, TRUE, FALSE, Driver.AttachShader, COMPILE_STATUS,
        INFO_LOG_LENGTH]
    | false =>
      simp only [Driver.CreateShader, Driver.emit, hf, hc, Driver.ShaderSource,
        Driver.CompileShader, Driver.GetShaderiv, Driver.boolean, TRUE, FALSE, COMPILE_STATUS,
        INFO_LOG_LENGTH, getErrorMsg_shader]
      cases hm : msgRet (int32 (w.shaderLogLength gl.next)) (w.shaderLog gl.next) <;>
        simp [hm]

theorem compileRet_eq_none (w : World) (h : Nat) (s : Info) :
    compileRet w h s = .returned none ↔ compileOk w h s = true := by
  unfold compileRet compileOk
  cases hf : readShader w s.Filename with
  | error e => simp
  | ok src =>
    cases hc : w.compileStatus h with
    | true => simp
    | false =>
      cases hm : msgRet (int32 (w.shaderLogLength h)) (w.shaderLog h) <;> simp

theorem compiles_eq (w : World) (h : Nat) (s : Info) : compiles w h s = compileOk w h s := by
  have := compileRet_eq_none w h s
  simp only [compiles, Compile_eq]
  cases hc : compileOk w h s
  · simp only [hc, Bool.false_eq_true, iff_false] at this
    simp [this]
  · simp only [hc, iff_true] at this
    simp [this]

theorem compileOk_iff (w : World) (h : Nat) (s : Info) :
    compileOk w h s = true ↔
      (∃ content, w.files s.Filename = .ok content) ∧ w.compileStatus h = true := by
  unfold compileOk readShader
  cases hf : w.files s.Filename <;> cases hc : w.compileStatus h <;> simp

theorem msgCalls_shader_isCompileCall (h : Nat) (l : Int) :
    ∀ c ∈ msgCalls true h l, c.isCompileCall = true := by
  unfold msgCalls
  by_cases h1 : 0 < int32 (l + 1) <;> simp [h1, Call.isCompileCall]

theorem compileCalls_isCompileCall (w : World) (program h : Nat) (s : Info) :
    ∀ c ∈ compileCalls w program h s, c.isCompileCall = true := by
  unfold compileCalls
  cases hf : readShader w s.Filename with
  | error e => simp [Call.isCompileCall]
  | ok src =>
    cases hc : w.compileStatus h with
    | true => simp [Call.isCompileCall]
    | false =>
      intro c hmem
      simp only [Bool.false_eq_true, if_false, List.mem_cons, List.mem_append,
        List.not_mem_nil, or_false] at hmem
      rcases hmem with rfl | (rfl | rfl | rfl) | hmem
      · rfl
      · rfl
      · rfl
      · rfl
      · exact msgCalls_shader_isCompileCall h _ c hmem

theorem loopCalls_isCompileCall (w : World) (program : Nat) (rest : List Info) :
    ∀ h, ∀ c ∈ loopCalls w program h rest, c.isCompileCall = true := by
  induction rest with
  | nil => simp [loopCalls]
  | cons s rest ih =>
    intro h c hc
    simp only [loopCalls, List.mem_append] at hc
    rcases hc with hc | hc
    · exact compileCalls_isCompileCall w program h s c hc
    · split at hc
      · exact ih _ c hc
      · simp at hc

/-! ## Lemmas on cleanup -/

theorem cleanup_eq (shaders : List Info) (gl : Driver) :
    cleanup shaders gl =
      { next := gl.next, shaders := cleanupLive shaders gl.shaders, programs := gl.programs,
        calls := gl.calls ++ cleanupCalls shaders } := by
  induction shaders generalizing gl with
  | nil => simp [cleanup, cleanupLive, cleanupCalls]
  | cons s rest ih =>
    by_cases hs : s.shader = 0
    · simp [cleanup, cleanupLive, cleanupCalls, hs, ih]
    · simp [cleanup, cleanupLive, cleanupCalls, hs, ih, Info.Delete, Driver.DeleteShader,
        Driver.emit]

theorem cleanupCalls_zero (shaders : List Info) (h0 : ∀ s ∈ shaders, s.shader = 0) :
    cleanupCalls shaders = [] := by
  simp only [cleanupCalls, List.map_eq_nil_iff, List.filter_eq_nil_iff]
  intro s hs
  simp [h0 s hs]

theorem cleanupLive_zero (shaders : List Info) (h0 : ∀ s ∈ shaders, s.shader = 0)
    (live : List Nat) : cleanupLive shaders live = live := by
  induction shaders generalizing live with
  | nil => rfl
  | cons s rest ih =>
    have hs : s.shader = 0 := h0 s (List.mem_cons_self _ _)
    simp only [cleanupLive, hs, ne_eq, not_true_eq_false, if_false]
    exact ih (fun t ht => h0 t (List.mem_cons_of_mem _ ht)) live

/-! ## Lemmas on the loop of load -/

theorem loop_eq (w : World) (shaders : List Info) (program : Nat) (rest : List Info)
    (gl : Driver) :
    load.loop w shaders program rest gl =
      match loopRet w gl.next rest with
      | .returned none => (none, afterCompiles w program rest gl)
      | .returned (some e) =>
        (some { ret := .returned (0, some e), shaders := shaders,
                gl := (cleanup shaders (afterCompiles w program rest gl)).DeleteProgram program },
          (cleanup shaders (afterCompiles w program rest gl)).DeleteProgram program)
      | .panicked q =>
        (some { ret := .panicked q, shaders := shaders,
                gl := afterCompiles w program rest gl },
          afterCompiles w program rest gl) := by
  induction rest generalizing gl with
  | nil => simp [load.loop, loopRet, afterCompiles, loopRuns, loopCalls]
  | cons s rest ih =>
    simp only [load.loop, Compile_eq, loopRet]
    have hok := compileRet_eq_none w gl.next s
    cases hr : compileRet w gl.next s with
    | panicked q =>
      have hc : compileOk w gl.next s = false := by
        cases h : compileOk w gl.next s
        · rfl
        · rw [hok.2 h] at hr; cases hr
      simp [afterCompiles, loopRuns, loopCalls, hc, hr, List.range'_succ]
    | returned o =>
      cases o with
      | some e =>
        have hc : compileOk w gl.next s = false := by
          cases h : compileOk w gl.next s
          · rfl
          · rw [hok.2 h] at hr; cases hr
        simp [afterCompiles, loopRuns, loopCalls, hc, hr, List.range'_succ]
      | none =>
        have hc : compileOk w gl.next s = true := hok.1 hr
        simp only [ih, hc, if_true]
        cases hl : loopRet w (gl.next + 1) rest with
        | panicked q =>
          simp [afterCompiles, loopRuns, loopCalls, hc, List.range'_succ,
            Nat.add_assoc, Nat.add_comm 1]
        | returned o2 =>
          cases o2 <;>
            simp [afterCompiles, loopRuns, loopCalls, hc, List.range'_succ,
              Nat.add_assoc, Nat.add_comm 1]

end shader

namespace shader

/-! ## Closed form of load -/

theorem load_eq (w : World) (shaders : List Info) (separable : Bool) (gl : Driver) :
    load w shaders separable gl =
      { ret := loadRet w shaders gl.next,
        shaders := shaders,
        gl :=
          { next := gl.next + 1 + loopRuns w (gl.next + 1) shaders,
            shaders :=
              if loopPanics w shaders gl.next then
                (List.range' (gl.next + 1) (loopRuns w (gl.next + 1) shaders)).reverse ++
                  gl.shaders
              else cleanupLive shaders
                ((List.range' (gl.next + 1) (loopRuns w (gl.next + 1) shaders)).reverse ++
                  gl.shaders),
            programs :=
              if loadFails w shaders gl.next = true ∧ gl.next ≠ 0 then
                (gl.next :: gl.programs).filter (fun h => h ≠ gl.next)
              else gl.next :: gl.programs,
            calls := gl.calls ++ loadCalls w shaders separable gl.next } } := by
  obtain ⟨n, live, progs, log⟩ := gl
  unfold load
  simp only [Driver.CreateProgram, loop_eq, Driver.emit]
  cases hl : loopRet w (n + 1) shaders with
  | panicked q =>
    simp [loadRet, loadFails, loopPanics, loadCalls, compileAllCalls, hl, afterCompiles]
  | returned o =>
    cases o with
    | some e =>
      by_cases hn : n = 0
      · subst hn
        simp only [Nat.zero_add] at hl
        simp [loadRet, loadFails, loopPanics, loadCalls, compileAllCalls, hl, cleanup_eq,
          afterCompiles, Driver.DeleteProgram, Driver.emit]
      · simp [loadRet, loadFails, loopPanics, loadCalls, compileAllCalls, hl, cleanup_eq,
          afterCompiles, Driver.DeleteProgram, Driver.emit, hn]
    | none =>
      cases hk : w.linkStatus n with
      | true =>
        cases separable <;>
          simp [loadRet, loadFails, loopPanics, loadCalls, compileAllCalls, linkCalls, finishCalls, hl, hk,
            cleanup_eq, afterCompiles, Driver.emit, Driver.ProgramParameteri,
            Driver.LinkProgram, Driver.GetProgramiv, Driver.boolean, TRUE, FALSE, LINK_STATUS]
      | false =>
        cases hm : msgRet (int32 (w.programLogLength n)) (w.programLog n) with
        | panicked q =>
          cases separable <;>
            simp [loadRet, loadFails, loopPanics, loadCalls, compileAllCalls, linkCalls, finishCalls, hl, hk,
              hm, cleanup_eq, afterCompiles, Driver.emit, Driver.ProgramParameteri,
              Driver.LinkProgram, Driver.GetProgramiv, Driver.boolean, TRUE, FALSE,
              LINK_STATUS, getErrorMsg_program]
        | returned msg =>
          by_cases hn : n = 0
          · subst hn
            simp only [Nat.zero_add] at hl
            cases separable <;>
              simp [loadRet, loadFails, loopPanics, loadCalls, compileAllCalls, linkCalls, finishCalls, hl,
                hk, hm, cleanup_eq, afterCompiles, Driver.emit, Driver.ProgramParameteri,
                Driver.LinkProgram, Driver.GetProgramiv, Driver.boolean, TRUE, FALSE,
                LINK_STATUS, getErrorMsg_program, Driver.DeleteProgram]
          · cases separable <;>
              simp [loadRet, loadFails, loopPanics, loadCalls, compileAllCalls, linkCalls, finishCalls, hl,
                hk, hm, cleanup_eq, afterCompiles, Driver.emit, Driver.ProgramParameteri,
                Driver.LinkProgram, Driver.GetProgramiv, Driver.boolean, TRUE, FALSE,
                LINK_STATUS, getErrorMsg_program, Driver.DeleteProgram, hn]

theorem since_eq (gl after : Driver) (cs : List Call) (h : after.calls = gl.calls ++ cs) :
    after.since gl = cs := by
  simp [Driver.since, h]

theorem load_since (w : World) (shaders : List Info) (separable : Bool) (gl : Driver) :
    (load w shaders separable gl).gl.since gl = loadCalls w shaders separable gl.next :=
  since_eq _ _ _ (by rw [load_eq])

theorem loopRet_eq_none (w : World) (rest : List Info) :
    ∀ h, loopRet w h rest = .returned none ↔
      ∀ k, ∀ hk : k < rest.length, compiles w (h + k) (rest.get ⟨k, hk⟩) = true := by
  induction rest with
  | nil => simp [loopRet]
  | cons s rest ih =>
    intro h
    simp only [loopRet]
    constructor
    · intro hn k hk
      cases hc : compileOk w h s with
      | false =>
        simp only [hc, Bool.false_eq_true, if_false] at hn
        rw [(compileRet_eq_none w h s).1 hn] at hc
        cases hc
      | true =>
        simp only [hc, if_true] at hn
        cases k with
        | zero => simp [compiles_eq, hc]
        | succ k =>
          have := (ih (h + 1)).1 hn k (by simpa using hk)
          simpa [Nat.add_assoc, Nat.add_comm 1] using this
    · intro hall
      have h0 := hall 0 (by simp)
      simp only [compiles_eq, List.get_eq_getElem, List.getElem_cons_zero, Nat.add_zero] at h0
      simp only [h0, if_true]
      refine (ih (h + 1)).2 ?_
      intro k hk
      have := hall (k + 1) (by simpa using hk)
      simpa [Nat.add_assoc, Nat.add_comm 1] using this

theorem filter_loopCalls_of_not_compile (f : Call → Bool)
    (hf : ∀ c, c.isCompileCall = true → f c = false) (w : World) (program h : Nat)
    (rest : List Info) : (loopCalls w program h rest).filter f = [] := by
  rw [List.filter_eq_nil_iff]
  intro c hc
  simp [hf c (loopCalls_isCompileCall w program rest h c hc)]

theorem filter_cleanupCalls (f : Call → Bool) (hf : ∀ h, f (Call.DeleteShader h) = false)
    (shaders : List Info) : (cleanupCalls shaders).filter f = [] := by
  rw [List.filter_eq_nil_iff]
  intro c hc
  simp only [cleanupCalls, List.mem_map] at hc
  obtain ⟨s, _, rfl⟩ := hc
  simp [hf]

theorem countP_loopCalls_createShader (w : World) (program : Nat) (rest : List Info) :
    ∀ h, (loopCalls w program h rest).countP Call.isCreateShader = loopRuns w h rest := by
  induction rest with
  | nil => simp [loopCalls, loopRuns]
  | cons s rest ih =>
    intro h
    have hm : ∀ l, (msgCalls true h l).countP Call.isCreateShader = 0 := by
      intro l
      unfold msgCalls
      by_cases h1 : 0 < int32 (l + 1) <;> simp [h1, Call.isCreateShader, List.countP_cons]
    have hc : (compileCalls w program h s).countP Call.isCreateShader = 1 := by
      unfold compileCalls
      cases hf : readShader w s.Filename <;> cases hc : w.compileStatus h <;>
        simp [Call.isCreateShader, List.countP_cons, List.countP_append, hm]
    simp only [loopCalls, loopRuns, List.countP_append, hc]
    split
    · rw [ih]; omega
    · simp

theorem loopRuns_le (w : World) (rest : List Info) : ∀ h, loopRuns w h rest ≤ rest.length := by
  induction rest with
  | nil => simp [loopRuns]
  | cons s rest ih =>
    intro h
    simp only [loopRuns, List.length_cons]
    split
    · have := ih (h + 1); omega
    · omega

theorem loopRuns_of_none (w : World) (rest : List Info) :
    ∀ h, loopRet w h rest = .returned none → loopRuns w h rest = rest.length := by
  induction rest with
  | nil => simp [loopRuns]
  | cons s rest ih =>
    intro h hn
    simp only [loopRet] at hn
    cases hc : compileOk w h s with
    | false =>
      simp only [hc, Bool.false_eq_true, if_false] at hn
      rw [(compileRet_eq_none w h s).1 hn] at hc
      cases hc
    | true =>
      simp only [hc, if_true] at hn
      simp [loopRuns, hc, ih (h + 1) hn]

end shader

namespace shader

theorem finishCalls_mem (w : World) (shaders : List Info) (p : Nat) :
    ∀ c ∈ finishCalls w shaders p,
      (∃ s ∈ shaders, s.shader ≠ 0 ∧ c = Call.DeleteShader s.shader) ∨
      c = Call.GetProgramiv p LINK_STATUS ∨ c = Call.GetProgramiv p INFO_LOG_LENGTH ∨
      c = Call.GetProgramInfoLog p (int32 (w.programLogLength p)) ∨
      c = Call.DeleteProgram p := by
  intro c hc
  unfold finishCalls at hc
  rw [List.mem_append, List.mem_cons] at hc
  rcases hc with hc | hc | hc
  · left
    simp only [cleanupCalls, List.mem_map, List.mem_filter, decide_eq_true_eq] at hc
    obtain ⟨s, ⟨hs, hne⟩, rfl⟩ := hc
    exact ⟨s, hs, hne, rfl⟩
  · exact Or.inr (Or.inl hc)
  · cases hk : w.linkStatus p with
    | true => simp [hk] at hc
    | false =>
      simp only [hk, Bool.false_eq_true, if_false, List.mem_append] at hc
      rcases hc with hc | hc
      · unfold msgCalls at hc
        by_cases h1 : 0 < int32 (int32 (w.programLogLength p) + 1)
        · simp only [h1, if_true, Bool.false_eq_true, if_false, List.mem_cons,
            List.mem_singleton, List.not_mem_nil, or_false] at hc
          rcases hc with hc | hc
          · exact Or.inr (Or.inr (Or.inl hc))
          · exact Or.inr (Or.inr (Or.inr (Or.inl hc)))
        · simp only [h1, if_false, Bool.false_eq_true, List.mem_cons, List.not_mem_nil,
            or_false] at hc
          exact Or.inr (Or.inr (Or.inl hc))
      · cases hm : msgRet (int32 (w.programLogLength p)) (w.programLog p) with
        | panicked q => simp [hm] at hc
        | returned msg =>
          simp only [hm, List.mem_singleton] at hc
          exact Or.inr (Or.inr (Or.inr (Or.inr hc)))

theorem finishCalls_not_compile (w : World) (shaders : List Info) (p : Nat) :
    ∀ c ∈ finishCalls w shaders p,
      c.isCompileCall = false ∧ c.isProgramParameteri = false ∧ c.isCreateShader = false := by
  intro c hc
  rcases finishCalls_mem w shaders p c hc with ⟨s, _, _, rfl⟩ | rfl | rfl | rfl | rfl <;>
    exact ⟨rfl, rfl, rfl⟩

theorem loadRet_ok (w : World) (shaders : List Info) (p q : Nat) :
    loadRet w shaders p = .returned (q, none) ↔
      q = p ∧ loopRet w (p + 1) shaders = .returned none ∧ w.linkStatus p = true := by
  unfold loadRet
  cases hl : loopRet w (p + 1) shaders with
  | panicked r => simp
  | returned o =>
    cases o with
    | some e => simp
    | none =>
      cases hk : w.linkStatus p with
      | true => simp [eq_comm]
      | false =>
        cases hm : msgRet (int32 (w.programLogLength p)) (w.programLog p) <;> simp

/-! ## Info.Compile -/

/-- C6 as stated fails on the error text.  For the stage broken.frag, whose
compile status is false and whose log is the five bytes of "error", reported
with length 6, the text of the error is "failed to compile broken.frag: error"
followed by two zero bytes: the buffer of getErrorMsg, not the driver log. -/
theorem Compile_error_text_padded :
    (Info.Compile brokenWorld { Type_ := FRAGMENT_SHADER, Filename := "broken.frag" } 1
        brokenStart).1 =
      Ret.returned (some (utf8 "failed to compile broken.frag: error" ++ [0, 0])) ∧
    (Info.Compile brokenWorld { Type_ := FRAGMENT_SHADER, Filename := "broken.frag" } 1
        brokenStart).1 ≠
      Ret.returned (some (utf8 "failed to compile broken.frag: " ++
        brokenWorld.shaderLog brokenStart.next)) := by
  decide

/-- C6, amended: Compile creates exactly one shader object, of kind Type, whose
name it stores in the Info it was called on; it returns nil exactly when the
source file is readable and the driver reports compile status true, and
attaches the shader to the target program exactly then, and otherwise attaches
nothing; it never issues DeleteShader, so the object stays allocated.  Where
the info-log length l the driver reports for the shader is from 0 to 2^31 - 2,
Compile returns, and on a compile-status failure the text of its error is
"failed to compile <Filename>: " followed by the buffer of l + 1 bytes that
getErrorMsg returns: the first l - 1 bytes of the driver log, then zero bytes;
that is the whole log and two zero bytes when l is the length of the log plus
one. -/
theorem Compile_contract (w : World) (i : Info) (program : Nat) (gl : Driver) :
    let r := Info.Compile w i program gl
    let h := (gl.CreateShader i.Type_).1
    let issued := r.2.2.since gl
    let l := (int32 (w.shaderLogLength h)).toNat
    r.2.2.calls = gl.calls ++ issued ∧
    issued.filter Call.isCreateShader = [Call.CreateShader i.Type_] ∧
    r.2.2.shaders = h :: gl.shaders ∧
    r.2.1 = { i with shader := h } ∧
    (r.1 = Ret.returned none ↔
      (∃ content, w.files i.Filename = .ok content) ∧ w.compileStatus h = true) ∧
    (Call.AttachShader program h ∈ issued ↔ r.1 = Ret.returned none) ∧
    (r.1 ≠ Ret.returned none → ∀ p s, Call.AttachShader p s ∉ issued) ∧
    (∀ s, Call.DeleteShader s ∉ issued) ∧
    (0 ≤ int32 (w.shaderLogLength h) ∧ int32 (w.shaderLogLength h) < 2147483647 →
      (∃ err, r.1 = Ret.returned err) ∧
      (∀ content, w.files i.Filename = .ok content → w.compileStatus h = false →
        r.1 = Ret.returned (some (utf8 "failed to compile " ++ utf8 i.Filename ++ utf8 ": " ++
          ((w.shaderLog h).take (l - 1) ++
            List.replicate (l + 1 - min (l - 1) (w.shaderLog h).length) 0))) ∧
        (l = (w.shaderLog h).length + 1 →
          r.1 = Ret.returned (some (utf8 "failed to compile " ++ utf8 i.Filename ++
            utf8 ": " ++ (w.shaderLog h ++ [0, 0])))))) := by
  intro r h issued l
  have hr : r = (compileRet w gl.next i, { i with shader := gl.next },
      { next := gl.next + 1, shaders := gl.next :: gl.shaders, programs := gl.programs,
        calls := gl.calls ++ compileCalls w program gl.next i }) := Compile_eq w i program gl
  have hh : h = gl.next := rfl
  have hi : issued = compileCalls w program gl.next i :=
    since_eq gl r.2.2 _ (by rw [hr])
  have hl : l = (int32 (w.shaderLogLength gl.next)).toNat := rfl
  have hmsg : ∀ l2, ∀ p s, Call.AttachShader p s ∉ msgCalls true gl.next l2 := by
    intro l2 p s hmem
    have := msgCalls_shader_isCompileCall gl.next l2 _ hmem
    unfold msgCalls at hmem
    by_cases h1 : 0 < int32 (l2 + 1) <;> simp [h1] at hmem
  rw [hi, hh, hr]
  refine ⟨rfl, ?_, rfl, rfl, ?_, ?_, ?_, ?_, ?_⟩
  · have hm : ∀ l2, (msgCalls true gl.next l2).filter Call.isCreateShader = [] := by
      intro l2
      unfold msgCalls
      by_cases h1 : 0 < int32 (l2 + 1) <;> simp [h1, Call.isCreateShader, List.filter_cons]
    unfold compileCalls
    cases hf : readShader w i.Filename <;> cases hc : w.compileStatus gl.next <;>
      simp [Call.isCreateShader, List.filter_cons, hm]
  · rw [compileRet_eq_none]
    exact compileOk_iff w gl.next i
  · show _ ↔ compileRet w gl.next i = Ret.returned none
    rw [compileRet_eq_none]
    unfold compileCalls compileOk
    cases hf : readShader w i.Filename <;> cases hc : w.compileStatus gl.next <;>
      simp [hmsg]
  · show compileRet w gl.next i ≠ Ret.returned none → _
    rw [ne_eq, compileRet_eq_none]
    unfold compileCalls compileOk
    cases hf : readShader w i.Filename <;> cases hc : w.compileStatus gl.next <;>
      simp [hmsg]
  · intro s hs
    have := compileCalls_isCompileCall w program gl.next i _ hs
    simp [Call.isCompileCall] at this
  · intro hrange
    have hm := msgRet_inRange (w.shaderLogLength gl.next) (w.shaderLog gl.next) hrange
    refine ⟨?_, ?_⟩
    · show ∃ err, compileRet w gl.next i = Ret.returned err
      unfold compileRet
      cases hf : readShader w i.Filename <;> cases hc : w.compileStatus gl.next <;>
        simp [hm]
    · intro content hf hc
      have htext : compileRet w gl.next i =
          Ret.returned (some (utf8 "failed to compile " ++ utf8 i.Filename ++ utf8 ": " ++
            ((w.shaderLog gl.next).take (l - 1) ++
              List.replicate (l + 1 - min (l - 1) (w.shaderLog gl.next).length) 0))) := by
        simp [compileRet, readShader, hf, hc, hm, hl]
      refine ⟨htext, ?_⟩
      intro hlen
      show compileRet w gl.next i = _
      rw [htext, hlen]
      have h2 : (w.shaderLog gl.next).length + 1 + 1 - (w.shaderLog gl.next).length = 2 := by
        omega
      simp [h2, List.replicate]

/-- Instance of the amended C6 on the stage broken.frag: the log length 6 is
in range, Compile returns an error, and its text ends in the log "error" and
two zero bytes. -/
theorem Compile_contract_witness :
    (0 ≤ int32 (brokenWorld.shaderLogLength brokenStart.next) ∧
      int32 (brokenWorld.shaderLogLength brokenStart.next) < 2147483647) ∧
    (Info.Compile brokenWorld { Type_ := FRAGMENT_SHADER, Filename := "broken.frag" } 1
        brokenStart).1 =
      Ret.returned (some (utf8 "failed to compile " ++ utf8 "broken.frag" ++ utf8 ": " ++
        (brokenWorld.shaderLog brokenStart.next ++ [0, 0]))) :=
  have hrange : 0 ≤ int32 (brokenWorld.shaderLogLength brokenStart.next) ∧
      int32 (brokenWorld.shaderLogLength brokenStart.next) < 2147483647 := by decide
  have h := Compile_contract brokenWorld { Type_ := FRAGMENT_SHADER, Filename := "broken.frag" }
    1 brokenStart
  ⟨hrange, ((h.2.2.2.2.2.2.2.2 hrange).2 (utf8 "#version 410 void") rfl rfl).2 (by decide)⟩

end shader

namespace shader

/-! ## load, Load and LoadSeparable -/

theorem count_deleteProgram_loadCalls (w : World) (shaders : List Info) (separable : Bool)
    (p : Nat) :
    (loadCalls w shaders separable p).count (Call.DeleteProgram p) =
      if loadFails w shaders p then 1 else 0 := by
  have h1 : (loopCalls w p (p + 1) shaders).count (Call.DeleteProgram p) = 0 := by
    rw [List.count_eq_zero]
    intro hc
    have := loopCalls_isCompileCall w p shaders (p + 1) _ hc
    simp [Call.isCompileCall] at this
  have h2 : (cleanupCalls shaders).count (Call.DeleteProgram p) = 0 := by
    rw [List.count_eq_zero]
    intro hc
    simp [cleanupCalls] at hc
  have h3 : ∀ l, (msgCalls false p l).count (Call.DeleteProgram p) = 0 := by
    intro l
    unfold msgCalls
    by_cases h : 0 < int32 (l + 1) <;> simp [h, List.count_cons]
  unfold loadCalls compileAllCalls linkCalls finishCalls loadFails loadRet
  cases hl : loopRet w (p + 1) shaders with
  | panicked q => simp [List.count_cons, h1]
  | returned o =>
    cases o with
    | some e => simp [List.count_cons, List.count_append, h1, h2]
    | none =>
      cases hk : w.linkStatus p with
      | true => cases separable <;> simp [List.count_cons, List.count_append, h1, h2]
      | false =>
        cases hm : msgRet (int32 (w.programLogLength p)) (w.programLog p) <;>
          cases separable <;>
          simp [List.count_cons, List.count_append, h1, h2, h3]

/-- C3, on the example descriptor list when both stages compile, the driver
reports link status false and gives 2147483647 as the length of the program
info log: in getErrorMsg the int32 sum l + 1 wraps to a negative count and
strings.Repeat panics.  Load returns nothing, DeleteProgram is not called and
the program object 1 stays allocated. -/
theorem Load_link_log_overflow_panics :
    (Load overflowWorld exampleShaders Driver.fresh).ret =
        Ret.panicked Panic.negativeRepeatCount ∧
    (Load overflowWorld exampleShaders Driver.fresh).gl.calls.count (Call.DeleteProgram 1) = 0 ∧
    (Load overflowWorld exampleShaders Driver.fresh).gl.programs = [1] := by
  decide

theorem compileRet_returns (w : World) (h : Nat) (s : Info)
    (hlen : 0 ≤ int32 (w.shaderLogLength h) ∧ int32 (w.shaderLogLength h) < 2147483647) :
    ∃ err, compileRet w h s = Ret.returned err := by
  have hm := msgRet_inRange (w.shaderLogLength h) (w.shaderLog h) hlen
  unfold compileRet
  cases hf : readShader w s.Filename <;> cases hc : w.compileStatus h <;> simp [hm]

theorem loopRet_returns (w : World) (rest : List Info)
    (hlen : ∀ id, 0 ≤ int32 (w.shaderLogLength id) ∧ int32 (w.shaderLogLength id) < 2147483647) :
    ∀ h, ∃ err, loopRet w h rest = Ret.returned err := by
  induction rest with
  | nil => intro h; exact ⟨none, rfl⟩
  | cons s rest ih =>
    intro h
    simp only [loopRet]
    split
    · exact ih (h + 1)
    · exact compileRet_returns w h s (hlen h)

/-- Where every info-log length the driver reports is from 0 to 2^31 - 2, load,
and so Load and LoadSeparable, returns one of two shapes.  Either (p, nil), p
being the program object created at the start of the call: then every Compile
succeeded, the driver reported link status true and the program was not
deleted.  Or (0, err) with err not nil: then DeleteProgram was called on p
exactly once and p is no longer allocated.  An error is returned exactly when
some Compile fails or the link status is false. -/
theorem load_shape_of_lengths_in_range (w : World) (shaders : List Info) (separable : Bool)
    (gl : Driver)
    (hs : ∀ id, 0 ≤ int32 (w.shaderLogLength id) ∧ int32 (w.shaderLogLength id) < 2147483647)
    (hp : ∀ id, 0 ≤ int32 (w.programLogLength id) ∧
      int32 (w.programLogLength id) < 2147483647) :
    let r := load w shaders separable gl
    let p := gl.CreateProgram.1
    let issued := r.gl.since gl
    let allCompile :=
      ∀ k, ∀ hk : k < shaders.length, compiles w (p + 1 + k) (shaders.get ⟨k, hk⟩) = true
    r.gl.calls = gl.calls ++ issued ∧
    issued.head? = some Call.CreateProgram ∧
    ((r.ret = Ret.returned (p, none) ∧ allCompile ∧ w.linkStatus p = true ∧
        issued.count (Call.DeleteProgram p) = 0 ∧ p ∈ r.gl.programs) ∨
      ((∃ e, r.ret = Ret.returned (0, some e)) ∧ issued.count (Call.DeleteProgram p) = 1 ∧
        (p ≠ 0 → p ∉ r.gl.programs))) ∧
    ((∃ e, r.ret = Ret.returned (0, some e)) ↔ ¬ allCompile ∨ w.linkStatus p = false) := by
  intro r p issued allCompile
  have hpn : p = gl.next := rfl
  have hr := load_eq w shaders separable gl
  have hi : issued = loadCalls w shaders separable gl.next := load_since w shaders separable gl
  have hall : allCompile ↔ loopRet w (gl.next + 1) shaders = Ret.returned none :=
    (loopRet_eq_none w shaders (gl.next + 1)).symm
  have hcount := count_deleteProgram_loadCalls w shaders separable gl.next
  have hret : r.ret = loadRet w shaders gl.next := by
    show (load w shaders separable gl).ret = _
    rw [hr]
  have hcalls : r.gl.calls = gl.calls ++ loadCalls w shaders separable gl.next := by
    show (load w shaders separable gl).gl.calls = _
    rw [hr]
  have hprogs : r.gl.programs =
      if loadFails w shaders gl.next = true ∧ gl.next ≠ 0 then
        (gl.next :: gl.programs).filter (fun h => h ≠ gl.next)
      else gl.next :: gl.programs := by
    show (load w shaders separable gl).gl.programs = _
    rw [hr]
  have hm := msgRet_inRange (w.programLogLength gl.next) (w.programLog gl.next) (hp gl.next)
  obtain ⟨o, ho⟩ := loopRet_returns w shaders hs (gl.next + 1)
  have hcases : (loadRet w shaders gl.next = Ret.returned (gl.next, none) ∧
        loadFails w shaders gl.next = false ∧
        loopRet w (gl.next + 1) shaders = Ret.returned none ∧ w.linkStatus gl.next = true) ∨
      ((∃ e, loadRet w shaders gl.next = Ret.returned (0, some e)) ∧
        loadFails w shaders gl.next = true ∧
        (loopRet w (gl.next + 1) shaders ≠ Ret.returned none ∨
          w.linkStatus gl.next = false)) := by
    unfold loadFails loadRet
    cases o with
    | some e => right; simp [ho]
    | none =>
      cases hk : w.linkStatus gl.next with
      | true => left; simp [ho, hk]
      | false => right; simp [ho, hk, hm]
  rw [hi, hpn, hret, hprogs, hcount, hall]
  refine ⟨hcalls, by simp [loadCalls, compileAllCalls], ?_, ?_⟩
  · rcases hcases with ⟨h1, h2, h3, h4⟩ | ⟨h1, h2, _⟩
    · left
      exact ⟨h1, h3, h4, by simp [h2], by simp [h2]⟩
    · right
      refine ⟨h1, by simp [h2], ?_⟩
      intro h0
      simp [h2, h0]
  · rcases hcases with ⟨h1, _, h3, h4⟩ | ⟨h1, _, h3⟩
    · simp [h1, h3, h4]
    · constructor
      · intro _
        rcases h3 with h3 | h3
        · exact Or.inl h3
        · exact Or.inr h3
      · intro _
        exact h1

/-- C4: Load and LoadSeparable end the same way, with the same return values
or the same panic, and leave the same driver objects.  Load issues no
ProgramParameteri call.  When all stages compile, the calls of LoadSeparable
are those of Load with one call ProgramParameteri(p, PROGRAM_SEPARABLE, TRUE)
put in right before LinkProgram(p), after the calls of the last Compile, and it
is the only ProgramParameteri call; when some stage does not compile, the two
make the same calls. -/
theorem LoadSeparable_vs_Load (w : World) (shaders : List Info) (gl : Driver) :
    let L := Load w shaders gl
    let S := LoadSeparable w shaders gl
    let p := gl.CreateProgram.1
    let flag := Call.ProgramParameteri p PROGRAM_SEPARABLE TRUE
    let allCompile :=
      ∀ k, ∀ hk : k < shaders.length, compiles w (p + 1 + k) (shaders.get ⟨k, hk⟩) = true
    (S.ret = L.ret ∧ S.shaders = L.shaders ∧
      S.gl.next = L.gl.next ∧ S.gl.shaders = L.gl.shaders ∧ S.gl.programs = L.gl.programs) ∧
    L.gl.calls = gl.calls ++ L.gl.since gl ∧
    S.gl.calls = gl.calls ++ S.gl.since gl ∧
    (L.gl.since gl).filter Call.isProgramParameteri = [] ∧
    (allCompile →
      (S.gl.since gl).filter Call.isProgramParameteri = [flag] ∧
      ∃ pre post,
        L.gl.since gl = pre ++ Call.LinkProgram p :: post ∧
        S.gl.since gl = pre ++ flag :: Call.LinkProgram p :: post ∧
        (∀ c ∈ pre, c = Call.CreateProgram ∨ c.isCompileCall = true) ∧
        (∀ c ∈ post, c.isCompileCall = false)) ∧
    (¬ allCompile → S.gl.since gl = L.gl.since gl) := by
  intro L S p flag allCompile
  have hp : p = gl.next := rfl
  have hL : L = load w shaders false gl := rfl
  have hS : S = load w shaders true gl := rfl
  have hLs : L.gl.since gl = loadCalls w shaders false gl.next := load_since w shaders false gl
  have hSs : S.gl.since gl = loadCalls w shaders true gl.next := load_since w shaders true gl
  have hall : allCompile ↔ loopRet w (gl.next + 1) shaders = Ret.returned none :=
    (loopRet_eq_none w shaders (gl.next + 1)).symm
  have hpp1 := filter_loopCalls_of_not_compile Call.isProgramParameteri
    (by intro c; cases c <;> simp [Call.isCompileCall, Call.isProgramParameteri])
    w gl.next (gl.next + 1) shaders
  have hpp2 := filter_cleanupCalls Call.isProgramParameteri
    (by intro h; rfl) shaders
  have hpp3 : (finishCalls w shaders gl.next).filter Call.isProgramParameteri = [] := by
    rw [List.filter_eq_nil_iff]
    intro c hc
    simp [(finishCalls_not_compile w shaders gl.next c hc).2.1]
  rw [hLs, hSs]
  refine ⟨?_, ?_, ?_, ?_, ?_, ?_⟩
  · rw [hL, hS, load_eq, load_eq]
    exact ⟨rfl, rfl, rfl, rfl, rfl⟩
  · rw [hL, load_eq]
  · rw [hS, load_eq]
  · unfold loadCalls compileAllCalls linkCalls
    cases hl : loopRet w (gl.next + 1) shaders with
    | panicked q => simp [List.filter_cons, Call.isProgramParameteri, hpp1]
    | returned o =>
      cases o <;>
        simp [List.filter_cons, Call.isProgramParameteri, hpp1, hpp2, hpp3]
  · intro ha
    have hl := hall.1 ha
    refine ⟨?_, compileAllCalls w shaders gl.next, finishCalls w shaders gl.next,
      ?_, ?_, ?_, ?_⟩
    · unfold loadCalls compileAllCalls linkCalls
      simp [hl, List.filter_cons, Call.isProgramParameteri, hpp1, hpp3, flag, hp]
    · simp [loadCalls, linkCalls, hl, hp]
    · simp [loadCalls, linkCalls, hl, hp, flag]
    · intro c hc
      simp only [compileAllCalls, List.mem_cons] at hc
      rcases hc with hc | hc
      · exact Or.inl hc
      · exact Or.inr (loopCalls_isCompileCall w gl.next shaders (gl.next + 1) c hc)
    · intro c hc
      exact (finishCalls_not_compile w shaders gl.next c hc).1
  · intro ha
    have hl : loopRet w (gl.next + 1) shaders ≠ Ret.returned none := fun h => ha (hall.2 h)
    unfold loadCalls
    cases hl2 : loopRet w (gl.next + 1) shaders with
    | panicked q => rfl
    | returned o =>
      cases o with
      | none => exact absurd hl2 hl
      | some e => rfl

/-- C10: load leaves the caller's slice as it was: Compile writes the new name
into the loop variable only.  So when every element has the shader ID zero on
entry, load issues no DeleteShader call, and the shader objects allocated after
the call are those allocated before plus one new object for each Compile call
made (each Compile call issues exactly one CreateShader call). -/
theorem load_keeps_slice (w : World) (shaders : List Info) (separable : Bool) (gl : Driver) :
    let r := load w shaders separable gl
    let issued := r.gl.since gl
    let compileCount := issued.countP Call.isCreateShader
    r.shaders = shaders ∧
    r.gl.calls = gl.calls ++ issued ∧
    ((∀ s ∈ shaders, s.shader = 0) →
      (∀ h, Call.DeleteShader h ∉ issued) ∧
      r.gl.shaders = (List.range' (gl.next + 1) compileCount).reverse ++ gl.shaders ∧
      r.gl.shaders.length = gl.shaders.length + compileCount ∧
      compileCount ≤ shaders.length ∧
      (∀ p, r.ret = Ret.returned (p, none) → compileCount = shaders.length) ∧
      (shaders ≠ [] → 0 < compileCount)) := by
  intro r issued compileCount
  have hr := load_eq w shaders separable gl
  have hi : issued = loadCalls w shaders separable gl.next := load_since w shaders separable gl
  have hfin : (finishCalls w shaders gl.next).countP Call.isCreateShader = 0 := by
    rw [List.countP_eq_zero]
    intro c hc
    simp [(finishCalls_not_compile w shaders gl.next c hc).2.2]
  have hcc : compileCount = loopRuns w (gl.next + 1) shaders := by
    show issued.countP Call.isCreateShader = _
    rw [hi]
    have h1 := countP_loopCalls_createShader w gl.next shaders (gl.next + 1)
    have h2 : (cleanupCalls shaders).countP Call.isCreateShader = 0 := by
      rw [List.countP_eq_zero]
      intro c hc
      simp only [cleanupCalls, List.mem_map] at hc
      obtain ⟨s, _, rfl⟩ := hc
      simp [Call.isCreateShader]
    unfold loadCalls compileAllCalls linkCalls
    cases hl : loopRet w (gl.next + 1) shaders with
    | panicked q => simp [List.countP_cons, Call.isCreateShader, h1]
    | returned o =>
      cases o <;> cases separable <;>
        simp [List.countP_cons, List.countP_append, Call.isCreateShader, h1, h2, hfin]
  have hsh : r.shaders = shaders := by
    show (load w shaders separable gl).shaders = _
    rw [hr]
  have hcalls : r.gl.calls = gl.calls ++ loadCalls w shaders separable gl.next := by
    show (load w shaders separable gl).gl.calls = _
    rw [hr]
  have hlive : r.gl.shaders =
      if loopPanics w shaders gl.next then
        (List.range' (gl.next + 1) (loopRuns w (gl.next + 1) shaders)).reverse ++ gl.shaders
      else cleanupLive shaders
        ((List.range' (gl.next + 1) (loopRuns w (gl.next + 1) shaders)).reverse ++
          gl.shaders) := by
    show (load w shaders separable gl).gl.shaders = _
    rw [hr]
  have hret : r.ret = loadRet w shaders gl.next := by
    show (load w shaders separable gl).ret = _
    rw [hr]
  refine ⟨hsh, by rw [hi]; exact hcalls, ?_⟩
  intro h0
  have hlive2 : r.gl.shaders =
      (List.range' (gl.next + 1) compileCount).reverse ++ gl.shaders := by
    rw [hlive, cleanupLive_zero shaders h0, hcc]
    simp
  refine ⟨?_, hlive2, ?_, ?_, ?_, ?_⟩
  · intro h hmem
    rw [hi] at hmem
    have hlc : Call.DeleteShader h ∉ loopCalls w gl.next (gl.next + 1) shaders := by
      intro hc
      have := loopCalls_isCompileCall w gl.next shaders (gl.next + 1) _ hc
      simp [Call.isCompileCall] at this
    have hfc : Call.DeleteShader h ∉ finishCalls w shaders gl.next := by
      intro hc
      rcases finishCalls_mem w shaders gl.next _ hc with ⟨s, hs, hne, _⟩ | hx | hx | hx | hx
      · exact hne (h0 s hs)
      · cases hx
      · cases hx
      · cases hx
      · cases hx
    have hz := cleanupCalls_zero shaders h0
    unfold loadCalls compileAllCalls linkCalls at hmem
    cases hl : loopRet w (gl.next + 1) shaders with
    | panicked q => simp [hl, hlc] at hmem
    | returned o =>
      cases o <;> cases separable <;> simp [hl, hz, hlc, hfc] at hmem
  · rw [hlive2]; simp; omega
  · rw [hcc]; exact loopRuns_le w shaders (gl.next + 1)
  · intro p hn
    rw [hret, loadRet_ok] at hn
    rw [hcc]
    exact loopRuns_of_none w shaders (gl.next + 1) hn.2.1
  · intro hne
    rw [hcc]
    cases shaders with
    | nil => exact absurd rfl hne
    | cons s rest => simp [loopRuns]

/-- Instance of C10 on the example: two Compile calls, two shader objects
left allocated, no DeleteShader call. -/
theorem load_keeps_slice_witness :
    (∀ s ∈ exampleShaders, s.shader = 0) ∧
    (load goodWorld exampleShaders false Driver.fresh).shaders = exampleShaders ∧
    (∀ h, Call.DeleteShader h ∉
      (load goodWorld exampleShaders false Driver.fresh).gl.since Driver.fresh) ∧
    (load goodWorld exampleShaders false Driver.fresh).gl.shaders.length = 0 + 2 :=
  have h0 : ∀ s ∈ exampleShaders, s.shader = 0 := by decide
  have h := load_keeps_slice goodWorld exampleShaders false Driver.fresh
  ⟨h0, h.1, (h.2.2 h0).1, by decide⟩

/-! ## Evaluation on concrete inputs -/

/-- C1, on the example descriptor list with files that are readable, compile
and link: Load returns (1, nil), issues no DeleteShader call, and the two
shader objects it created, 2 and 3, are still allocated on return. -/
theorem Load_success_keeps_shaders :
    (Load goodWorld exampleShaders Driver.fresh).ret = Ret.returned (1, none) ∧
    (Load goodWorld exampleShaders Driver.fresh).gl.calls.filter Call.isDeleteShader = [] ∧
    (Load goodWorld exampleShaders Driver.fresh).gl.shaders = [3, 2] := by
  decide

/-- C2, on a descriptor list whose second stage does not compile: Load returns
(0, err), err being the error of the failing Compile, issues no DeleteShader
call, and both shader objects it created, the one of the failing stage
included, are still allocated on return. -/
theorem Load_failure_keeps_shaders :
    (Load brokenWorld brokenShaders Driver.fresh).ret =
      Ret.returned (0, some (utf8 "failed to compile broken.frag: error" ++ [0, 0])) ∧
    (Load brokenWorld brokenShaders Driver.fresh).gl.calls.filter Call.isDeleteShader = [] ∧
    (Load brokenWorld brokenShaders Driver.fresh).gl.shaders = [3, 2] := by
  decide

/-! ## Info.Delete -/

/-- C5 as stated fails: Delete on a never-compiled Info calls the driver, with
DeleteShader on the zero handle. -/
theorem Delete_unset_calls_driver :
    ((Info.Delete { Type_ := VERTEX_SHADER, Filename := "simple.vert" } Driver.fresh).2.since
      Driver.fresh) = [Call.DeleteShader 0] := by
  decide

/-- C5, amended: on an Info whose shader ID is zero, Delete issues exactly one
driver call, DeleteShader(0), which the driver ignores: the allocated objects
and the Info are unchanged.  The check for zero is made by cleanup, which does
not call Delete on such an Info and leaves the driver state as it is. -/
theorem Delete_unset (i : Info) (gl : Driver) (h0 : i.shader = 0) :
    (i.Delete gl).2.since gl = [Call.DeleteShader 0] ∧
    (i.Delete gl).2.calls = gl.calls ++ [Call.DeleteShader 0] ∧
    (i.Delete gl).2.next = gl.next ∧
    (i.Delete gl).2.shaders = gl.shaders ∧
    (i.Delete gl).2.programs = gl.programs ∧
    (i.Delete gl).1 = i ∧
    cleanup [i] gl = gl := by
  refine ⟨?_, ?_, ?_, ?_, ?_, ?_, ?_⟩ <;>
    simp [Info.Delete, Driver.DeleteShader, Driver.emit, Driver.since, h0, cleanup]

/-- Instance of the amended C5 on a descriptor of the example. -/
theorem Delete_unset_witness :
    (Info.Delete { Type_ := FRAGMENT_SHADER, Filename := "simple.frag" } Driver.fresh).2.shaders
        = [] ∧
    cleanup [{ Type_ := FRAGMENT_SHADER, Filename := "simple.frag" }] Driver.fresh
        = Driver.fresh :=
  have h := Delete_unset { Type_ := FRAGMENT_SHADER, Filename := "simple.frag" } Driver.fresh rfl
  ⟨h.2.2.2.1, h.2.2.2.2.2.2⟩

end shader
namespace app

/-! ## Run: window creation and monitor selection -/

/-- C7, on the empty list SupportedGLVers: the loop body never runs, the
window stays nil and Run panics in window.MakeContextCurrent() instead of
returning the "failed to create window" error. -/
theorem Run_no_versions_panics :
    (Context.Run goodSys (New { exampleConfig with SupportedGLVers := [] }) noFlags).outcome =
        Outcome.panicked Panic.nilDereference ∧
    (Context.Run goodSys (New { exampleConfig with SupportedGLVers := [] }) noFlags).events =
        [Event.Init, Event.Terminate] := by
  decide

/-- C8, on the flag value -screen=-1 with one monitor: the test screen > len(m)
passes and Run panics indexing m[screen-1] instead of returning the "invalid
monitor" error. -/
theorem Run_negative_screen_panics :
    (Context.Run goodSys (New exampleConfig) { noFlags with screen := -1 }).outcome =
        Outcome.panicked Panic.indexOutOfRange ∧
    (Context.Run goodSys (New exampleConfig) { noFlags with screen := -1 }).events =
        [Event.Init, Event.GetMonitors, Event.Terminate] := by
  decide

/-! ## Run: the key callback -/

theorem start_next (sys : Sys) (ctx : Context) (g : Globals) (st : Started) (evs : List Event)
    (hstart : Context.Run.start sys ctx g = (Step.next st, evs)) :
    st.globals.sceneKeyCallback = ctx.Config.KeyCallback ∧
    st.window.keyCallback = ctx.Config.EscapeToQuit := by
  unfold Context.Run.start at hstart
  split at hstart
  · simp at hstart
  · simp at hstart
  · split at hstart
    · simp at hstart
    · simp at hstart
    · simp at hstart
    · split at hstart
      · simp at hstart
      · split at hstart
        · simp at hstart
        · split at hstart
          · next hq =>
            simp only [Prod.mk.injEq, Step.next.injEq] at hstart
            rw [← hstart.1]
            simp [hq]
          · next hq =>
            simp only [Prod.mk.injEq, Step.next.injEq] at hstart
            rw [← hstart.1]
            simp [hq]

/-- C9 as stated fails: with EscapeToQuit unset, a release of the Escape key
delivered while Run is looping requests no window close, and the loop goes on. -/
theorem escape_without_EscapeToQuit :
    (Context.Run escapeSys (New { exampleConfig with EscapeToQuit := false }) noFlags).outcome =
        Outcome.looping ∧
    (Context.Run escapeSys (New { exampleConfig with EscapeToQuit := false })
        noFlags).events.filter Event.isSetShouldClose = [] := by
  decide

/-- C9, amended: when Run has reached its main loop with EscapeToQuit set in
the Config, every key event delivered to the window is handled as follows.  If
it is a release of the Escape key, window close is requested.  If
Config.KeyCallback is set, that callback is invoked exactly once, with the
arguments of the event; if it is not set, nothing is invoked. -/
theorem keyCallback_with_EscapeToQuit (sys : Sys) (ctx : Context) (g : Globals) (st : Started)
    (evs : List Event) (hstart : Context.Run.start sys ctx g = (Step.next st, evs))
    (hq : ctx.Config.EscapeToQuit = true)
    (w : Window) (hw : w.keyCallback = st.window.keyCallback) (ev : KeyEvent) :
    (ev.action = Release ∧ ev.key = KeyEscape →
      (w.deliver st.globals (Input.key ev)).1.shouldClose = true ∧
      (w.deliver st.globals (Input.key ev)).2.filter Event.isSetShouldClose =
        [Event.SetShouldClose w.name true]) ∧
    (∀ cb, ctx.Config.KeyCallback = some cb →
      (w.deliver st.globals (Input.key ev)).2.filter Event.isSceneKeyCallback =
        [Event.sceneKeyCallback cb w.name ev]) ∧
    (ctx.Config.KeyCallback = none →
      (w.deliver st.globals (Input.key ev)).2.filter Event.isSceneKeyCallback = []) := by
  obtain ⟨hcb, hreg⟩ := start_next sys ctx g st evs hstart
  have hk : w.keyCallback = true := by rw [hw, hreg, hq]
  refine ⟨?_, ?_, ?_⟩
  · intro hesc
    cases hc : st.globals.sceneKeyCallback <;>
      simp [Window.deliver, hk, keyCallback, hesc, hc, List.filter_cons,
        Event.isSetShouldClose]
  · intro cb hcfg
    rw [hcfg] at hcb
    by_cases hesc : ev.action = Release ∧ ev.key = KeyEscape <;>
      simp [Window.deliver, hk, keyCallback, hesc, hcb, List.filter_cons,
        Event.isSceneKeyCallback]
  · intro hcfg
    rw [hcfg] at hcb
    by_cases hesc : ev.action = Release ∧ ev.key = KeyEscape <;>
      simp [Window.deliver, hk, keyCallback, hesc, hcb, List.filter_cons,
        Event.isSceneKeyCallback]

/-- Instance of the amended C9: Run reaches its loop on goodSys with
callbackConfig, and a release of the Escape key then requests window close and
invokes the callback 7 once. -/
theorem keyCallback_with_EscapeToQuit_witness :
    Context.Run.start goodSys (New callbackConfig) noFlags =
        (Step.next callbackStarted, (Context.Run.start goodSys (New callbackConfig) noFlags).2) ∧
    (callbackStarted.window.deliver callbackStarted.globals
        (Input.key ⟨KeyEscape, 0, Release, 0⟩)).1.shouldClose = true ∧
    (callbackStarted.window.deliver callbackStarted.globals
        (Input.key ⟨KeyEscape, 0, Release, 0⟩)).2.filter Event.isSceneKeyCallback =
      [Event.sceneKeyCallback 7 1 ⟨KeyEscape, 0, Release, 0⟩] :=
  have hstart : Context.Run.start goodSys (New callbackConfig) noFlags =
      (Step.next callbackStarted, (Context.Run.start goodSys (New callbackConfig) noFlags).2) := by
    decide
  have h := keyCallback_with_EscapeToQuit goodSys (New callbackConfig) noFlags callbackStarted
    _ hstart rfl callbackStarted.window rfl ⟨KeyEscape, 0, Release, 0⟩
  ⟨hstart, (h.1 ⟨rfl, rfl⟩).1, h.2.1 7 rfl⟩

end app
